import Mathlib

/-!
Shallow embedding of `cmd/minikube/cmd/delete.go` (minikube `delete` command).

The file models the three functions with real control flow — `runDelete`,
`deleteProfile` (with its helpers `uninstallKubernetes` and
`deleteProfileDirectory`) and `killMountProcess` — as pure Lean functions over
an explicit environment recording the results every external collaborator
(filesystem, process table, config store, libmachine API, …) would return.
Each function produces the list of observable effects it performs (prints,
signals, file removals, …) together with an `Outcome`: normal return or
immediate process termination with an exit code (`exit.WithError`,
`exit.UsageT`, `os.Exit`).
-/

namespace MinikubeDelete

/-- Classification of the root cause of a Go error, as far as this code
inspects it: `os.IsNotExist`, the `mcnerror.ErrHostDoesNotExist` type switch,
or anything else. -/
inductive ErrKind
  | hostDoesNotExist
  | notExist
  | other
deriving DecidableEq, Repr

/-- A Go error value: either a base error or a `github.com/pkg/errors.Wrap`
of an inner error with a message. -/
inductive GoErr
  | base (kind : ErrKind) (msg : String)
  | wrap (inner : GoErr) (msg : String)
deriving DecidableEq, Repr

/-- The `errors.Cause` operation: unwrap to the root error. -/
def GoErr.cause : GoErr → GoErr
  | .base k m => .base k m
  | .wrap e _ => e.cause

/-- The `Error()` string of a wrapped error: `"msg: inner"`. -/
def GoErr.render : GoErr → String
  | .base _ m => m
  | .wrap e m => m ++ ": " ++ e.render

/-- Whether `os.IsNotExist` holds of the error itself (it does not unwrap
`pkg/errors` wrapping). -/
def GoErr.isNotExist : GoErr → Bool
  | .base .notExist _ => true
  | _ => false

/-- The `switch errors.Cause(err).(type) { case mcnerror.ErrHostDoesNotExist }`
test in `deleteProfile`. -/
def GoErr.causeIsHostDoesNotExist (e : GoErr) : Bool :=
  match e.cause with
  | .base .hostDoesNotExist _ => true
  | _ => false

/-- Observable effects performed by the delete command. `printT`/`printErrT`
are `out.T`/`out.ErrT` console messages (style id, template, substituted
arguments); every other constructor is an externally visible action. -/
inductive Event
  | printT (style tmpl : String) (args : List (String × String))
  | printErrT (style tmpl : String) (args : List (String × String))
  | setProfileAttempt (name : String)
  | apiClose
  | bootstrapperResolveAttempt (bsName : String)
  | bootstrapperDeleteClusterAttempt (bsName : String)
  | killSignal (pid : Int)
  | removeFile (path : String)
  | deleteHostAttempt
  | removeDirAttempt (dir : String)
  | deleteProfileMetaAttempt (name : String)
  | deleteContextAttempt (machine : String)
  | unsetProfileAttempt
  | purgeRootAttempt (dir : String)
deriving DecidableEq, Repr

/-- Holds (as `true`) for the events that mutate state outside the process (anything but
console output and closing the API client handle). -/
def Event.isMutation : Event → Bool
  | .printT _ _ _ => false
  | .printErrT _ _ _ => false
  | .apiClose => false
  | _ => true

/-- How a function invocation ends: a normal return, or immediate process
termination with the given exit status (`os.Exit`, `exit.WithError`,
`exit.UsageT`). -/
inductive Outcome
  | normal
  | exited (code : Nat)
deriving DecidableEq, Repr

/-- Modelled from the spec: `exit.WithError` (package
`k8s.io/minikube/pkg/minikube/exit`, not under the sources) "terminates the
process immediately with a nonzero status". -/
def exitWithErrorCode : Nat := 70

/-- Modelled from the spec: `exit.UsageT` terminates the process immediately
with a nonzero status on "a usage violation". -/
def exitUsageCode : Nat := 64

/-- The configuration root directory `localpath.MiniPath()` (external
collaborator; a fixed path for one run). -/
def miniPath : String := "/home/user/.minikube"

/-- The value of `constants.MountProcessFileName`. -/
def mountProcessFileName : String := ".mount-process"

/-- The mount-helper PID file path, `filepath.Join(localpath.MiniPath(),
constants.MountProcessFileName)`. -/
def pidPath : String := miniPath ++ "/" ++ mountProcessFileName

/-- The value of `constants.DriverNone`. -/
def driverNone : String := "none"

/-- The machine-state directory `filepath.Join(localpath.MiniPath(), "machines", profile)`. -/
def machinesDir (profile : String) : String := miniPath ++ "/machines/" ++ profile

/-- The profile-state directory `filepath.Join(localpath.MiniPath(), "profiles", profile)`. -/
def profilesDir (profile : String) : String := miniPath ++ "/profiles/" ++ profile

/-- A `go-ps` process-table entry (only `Executable()` is used). -/
structure ProcEntry where
  executable : String
deriving DecidableEq, Repr

/-- Results the external world returns to one `killMountProcess` invocation:
whether the PID file exists, what reading it yields, what the process-table
lookup yields, and the results of `os.Remove`, `os.FindProcess` and
`Process.Kill`. -/
structure ReaperEnv where
  pidFileExists : Bool
  readResult : Except GoErr String
  psFindResult : Except GoErr (Option ProcEntry)
  removePidResult : Option GoErr
  osFindResult : Option GoErr
  killResult : Option GoErr
deriving Repr

/-- Digit-string accumulator for `atoi`. -/
def parseDigitsAux : List Char → Nat → Option Nat
  | [], acc => some acc
  | c :: cs, acc =>
    if c.isDigit then parseDigitsAux cs (acc * 10 + (c.toNat - 48)) else none

/-- A non-empty all-digit character list parsed as a natural number. -/
def parseDigits : List Char → Option Nat
  | [] => none
  | cs => parseDigitsAux cs 0

/-- Embedding of `strconv.Atoi`: an optional sign followed by at least one
digit, nothing else (64-bit range checking is not modelled). -/
def atoi (s : String) : Option Int :=
  match s.data with
  | [] => none
  | '+' :: cs => (parseDigits cs).map fun n => (n : Int)
  | '-' :: cs => (parseDigits cs).map fun n => -(n : Int)
  | cs => (parseDigits cs).map fun n => (n : Int)

/-- Embedding of `killMountProcess`: kill the mount helper process recorded in the PID
file, if any. Returns the effects performed and `none` on success or the
returned error. -/
def killMountProcess (env : ReaperEnv) : List Event × Option GoErr :=
  if env.pidFileExists = false then
    ([], none)
  else
    match env.readResult with
    | .error e => ([], some (GoErr.wrap e "ReadFile"))
    | .ok contents =>
      match atoi contents with
      | none =>
        ([], some (GoErr.wrap
          (GoErr.base .other ("strconv.Atoi: parsing " ++ contents ++ ": invalid syntax"))
          "error parsing pid"))
      | some pid =>
        match env.psFindResult with
        | .error e => ([], some (GoErr.wrap e "ps.FindProcess"))
        | .ok none =>
          match env.removePidResult with
          | some e => ([Event.removeFile pidPath], some (GoErr.wrap e "Removing stale pid"))
          | none => ([Event.removeFile pidPath], none)
        | .ok (some entry) =>
          match env.osFindResult with
          | some e => ([], some (GoErr.wrap e "os.FindProcess"))
          | none =>
            match env.killResult with
            | some ke =>
              match env.removePidResult with
              | some re =>
                ([Event.killSignal pid, Event.removeFile pidPath],
                 some (GoErr.wrap re "Removing likely stale unkillable pid"))
              | none =>
                ([Event.killSignal pid, Event.removeFile pidPath],
                 some (GoErr.wrap ke ("Kill(" ++ toString pid ++ "/" ++ entry.executable ++ ")")))
            | none => ([Event.killSignal pid], none)

/-- The PID-file existence state after the events of one invocation: a
`removeFile pidPath` event deletes the file. -/
def fileExistsAfter (exists0 : Bool) (evs : List Event) : Bool :=
  evs.foldl
    (fun st e =>
      match e with
      | Event.removeFile p => if p = pidPath then false else st
      | _ => st)
    exists0

/-- The reaper environment after one invocation's events (only the PID-file
existence can be changed by the reaper itself). -/
def ReaperEnv.afterEvents (env : ReaperEnv) (evs : List Event) : ReaperEnv :=
  { env with pidFileExists := fileExistsAfter env.pidFileExists evs }

/-- Embedding of `pkg_config.KubernetesConfig` (only `KubernetesVersion` is used here). -/
structure KubernetesConfig where
  kubernetesVersion : String
deriving DecidableEq, Repr

/-- Embedding of `pkg_config.MachineConfig` (only `VMDriver` is used here). -/
structure MachineConfig where
  vmDriver : String
deriving DecidableEq, Repr

/-- Embedding of `pkg_config.Config`: a profile's persisted configuration. -/
structure ClusterConfig where
  machineConfig : MachineConfig
  kubernetesConfig : KubernetesConfig
deriving DecidableEq, Repr

/-- Results the external collaborators return to one `deleteProfile`
invocation for a given profile: `cmdcfg.Set`, `machine.NewAPIClient`,
`pkg_config.Load`, the bootstrapper name and resolution, the mount reaper's
world, `cluster.DeleteHost`, the two profile directories, profile-metadata
deletion, `kubeconfig.DeleteContext` and `cmdcfg.Unset`. -/
structure ProfileEnv where
  setResult : Option GoErr
  apiResult : Option GoErr
  loadResult : Except GoErr ClusterConfig
  bootstrapperName : String
  getBootstrapperResult : Option GoErr
  deleteClusterResult : Option GoErr
  reaper : ReaperEnv
  deleteHostResult : Option GoErr
  machineDirExists : Bool
  removeMachineDirResult : Option GoErr
  profileDirExists : Bool
  removeProfileDirResult : Option GoErr
  deleteProfileMetaResult : Option GoErr
  machineName : String
  deleteContextResult : Option GoErr
  unsetResult : Option GoErr
deriving Repr

/-- Embedding of `uninstallKubernetes`: announce, resolve the cluster bootstrapper and
invoke its `DeleteCluster`; each failure only prints an error. Never exits. -/
def uninstallKubernetes (env : ProfileEnv) (kc : KubernetesConfig) (bsName : String) :
    List Event :=
  Event.printT "Resetting"
      "Uninstalling Kubernetes \x7b\x7b.kubernetes_version\x7d\x7d using \x7b\x7b.bootstrapper_name\x7d\x7d ..."
      [("kubernetes_version", kc.kubernetesVersion), ("bootstrapper_name", bsName)] ::
    Event.bootstrapperResolveAttempt bsName ::
    match env.getBootstrapperResult with
    | some e =>
      [Event.printErrT "Empty" "Unable to get bootstrapper: \x7b\x7b.error\x7d\x7d" [("error", e.render)]]
    | none =>
      Event.bootstrapperDeleteClusterAttempt bsName ::
        match env.deleteClusterResult with
        | some e =>
          [Event.printErrT "Empty" "Failed to delete cluster: \x7b\x7b.error\x7d\x7d" [("error", e.render)]]
        | none => []

/-- One arm of `deleteProfileDirectory`: if `os.Stat` finds the directory,
announce and `os.RemoveAll` it, exiting the process on a removal failure;
if the directory is absent, do nothing. -/
def removeDirStep (dirExists : Bool) (removeResult : Option GoErr) (dir : String) :
    List Event × Outcome :=
  if dirExists then
    match removeResult with
    | some _ =>
      ([Event.printT "DeletingHost" "Removing \x7b\x7b.directory\x7d\x7d ..." [("directory", dir)],
        Event.removeDirAttempt dir], Outcome.exited exitWithErrorCode)
    | none =>
      ([Event.printT "DeletingHost" "Removing \x7b\x7b.directory\x7d\x7d ..." [("directory", dir)],
        Event.removeDirAttempt dir], Outcome.normal)
  else ([], Outcome.normal)

/-- Embedding of `deleteProfileDirectory`: remove the machine-state directory, then the
profile-state directory. -/
def deleteProfileDirectory (env : ProfileEnv) (profile : String) : List Event × Outcome :=
  match removeDirStep env.machineDirExists env.removeMachineDirResult (machinesDir profile) with
  | (evs, Outcome.exited c) => (evs, Outcome.exited c)
  | (evs, Outcome.normal) =>
    match removeDirStep env.profileDirExists env.removeProfileDirResult (profilesDir profile) with
    | (evs2, o) => (evs ++ evs2, o)

/-- The events of `deleteProfile`'s configuration-load step: a load failure
other than "file does not exist" prints an error; a not-exist failure and a
successful load print nothing. -/
def loadSegment (env : ProfileEnv) (profile : String) : List Event :=
  match env.loadResult with
  | .ok _ => []
  | .error e =>
    if e.isNotExist then []
    else
      [Event.printErrT "Sad" "Error loading profile \x7b\x7b.name\x7d\x7d: \x7b\x7b.error\x7d\x7d"
        [("name", profile), ("error", e.render)]]

/-- The events of `deleteProfile`'s "none"-driver step: `uninstallKubernetes`
is invoked exactly when the configuration loaded and its driver is `"none"`. -/
def uninstallSegment (env : ProfileEnv) : List Event :=
  match env.loadResult with
  | .ok cc =>
    if cc.machineConfig.vmDriver = driverNone then
      uninstallKubernetes env cc.kubernetesConfig env.bootstrapperName
    else []
  | .error _ => []

/-- The events of `deleteProfile`'s mount-reaper step: run `killMountProcess`
and print a failure message if it returned an error. -/
def reaperSegment (env : ProfileEnv) : List Event :=
  match killMountProcess env.reaper with
  | (evs, some e) =>
    evs ++ [Event.printT "FailureType" "Failed to kill mount process: \x7b\x7b.error\x7d\x7d"
      [("error", e.render)]]
  | (evs, none) => evs

/-- The events of `deleteProfile`'s host-deletion step: `cluster.DeleteHost`
is always requested; an `ErrHostDoesNotExist` cause prints an informational
message, any other failure prints a warning plus a manual-removal hint. -/
def hostSegment (env : ProfileEnv) (profile : String) : List Event :=
  Event.deleteHostAttempt ::
    match env.deleteHostResult with
    | some e =>
      if e.causeIsHostDoesNotExist then
        [Event.printT "Meh" "\"\x7b\x7b.name\x7d\x7d\" cluster does not exist. Proceeding ahead with cleanup."
          [("name", profile)]]
      else
        [Event.printT "FailureType" "Failed to delete cluster: \x7b\x7b.error\x7d\x7d" [("error", e.render)],
         Event.printT "Notice" "You may need to manually remove the \"\x7b\x7b.name\x7d\x7d\" VM from your hypervisor"
           [("name", profile)]]
    | none => []

/-- Embedding of `deleteProfile`: the ordered per-profile teardown. Fatal steps terminate
the process (`Outcome.exited`); `defer api.Close()` runs only on the normal
return path, since `os.Exit` bypasses deferred calls. -/
def deleteProfile (env : ProfileEnv) (profile : String) : List Event × Outcome :=
  match env.setResult with
  | some _ => ([Event.setProfileAttempt profile], Outcome.exited exitWithErrorCode)
  | none =>
    match env.apiResult with
    | some _ => ([Event.setProfileAttempt profile], Outcome.exited exitWithErrorCode)
    | none =>
      let pre := Event.setProfileAttempt profile :: (loadSegment env profile ++
        uninstallSegment env ++ reaperSegment env ++ hostSegment env profile)
      match deleteProfileDirectory env profile with
      | (dirEvs, Outcome.exited c) => (pre ++ dirEvs, Outcome.exited c)
      | (dirEvs, Outcome.normal) =>
        let pre2 := pre ++ dirEvs ++ [Event.deleteProfileMetaAttempt profile]
        match env.deleteProfileMetaResult with
        | some e =>
          if e.isNotExist then
            (pre2 ++ [Event.printT "Meh" "\"\x7b\x7b.name\x7d\x7d\" profile does not exist"
              [("name", profile)]], Outcome.exited 0)
          else (pre2, Outcome.exited exitWithErrorCode)
        | none =>
          let pre3 := pre2 ++
            [Event.printT "Crushed" "The \"\x7b\x7b.name\x7d\x7d\" cluster has been deleted."
              [("name", profile)],
             Event.deleteContextAttempt env.machineName]
          match env.deleteContextResult with
          | some _ => (pre3, Outcome.exited exitWithErrorCode)
          | none =>
            match env.unsetResult with
            | some _ =>
              (pre3 ++ [Event.unsetProfileAttempt], Outcome.exited exitWithErrorCode)
            | none =>
              (pre3 ++ [Event.unsetProfileAttempt, Event.apiClose], Outcome.normal)

/-- The world one `runDelete` invocation sees: the positional arguments, the
`pkg_config.ListProfiles` result (valid profile names and error), the two
viper flags, each profile's collaborator results, and the result of
`os.RemoveAll` on the configuration root. -/
structure RunEnv where
  args : List String
  validProfiles : List String
  listErr : Option GoErr
  purgeFlag : Bool
  forceFlag : Bool
  profileEnv : String → ProfileEnv
  removeAllRootResult : Option GoErr

/-- The multi-profile purge guard condition of `runDelete`:
`err == nil && viper.GetBool(purge) && len(validProfiles) > 1 &&
!viper.GetBool(forcedelete)`. -/
def guardFires (env : RunEnv) : Bool :=
  env.listErr.isNone && env.purgeFlag && decide (env.validProfiles.length > 1) &&
    !env.forceFlag

/-- The guard's output: the list of profile names and the re-run instruction. -/
def guardEvents (profiles : List String) : List Event :=
  Event.printT "Embarrassed" "Multiple minikube profiles were found - " [] ::
    (profiles.map fun p =>
      Event.printT "Notice" "    - \x7b\x7b.profileName\x7d\x7d" [("profileName", p)]) ++
    [Event.printT "Notice"
      "Please use the \x7b\x7b.forceFlag\x7d\x7d to delete all of the configuration and the profiles."
      [("forceFlag", "forcedelete")]]

/-- The `for _, p := range validProfiles { deleteProfile(p.Name) }` loop:
sequential; a process exit in one profile's teardown ends the whole run
there. -/
def runProfiles (env : RunEnv) : List String → List Event × Outcome
  | [] => ([], Outcome.normal)
  | p :: ps =>
    match deleteProfile (env.profileEnv p) p with
    | (evs, Outcome.exited c) => (evs, Outcome.exited c)
    | (evs, Outcome.normal) =>
      match runProfiles env ps with
      | (evs2, o) => (evs ++ evs2, o)

/-- The purge step of `runDelete`: if the purge flag is set, `os.RemoveAll`
the configuration root, exiting the process on failure, else announce
success. -/
def purgeStep (env : RunEnv) : List Event × Outcome :=
  if env.purgeFlag then
    match env.removeAllRootResult with
    | some _ => ([Event.purgeRootAttempt miniPath], Outcome.exited exitWithErrorCode)
    | none =>
      ([Event.purgeRootAttempt miniPath,
        Event.printT "Crushed" "Successfully purged minikube directory located at - [\x7b\x7b.minikubeDirectory\x7d\x7d]"
          [("minikubeDirectory", miniPath)]], Outcome.normal)
  else ([], Outcome.normal)

/-- The profile loop followed by the purge step (the body of `runDelete`
after the usage check and the guard). -/
def loopThenPurge (env : RunEnv) : List Event × Outcome :=
  match runProfiles env env.validProfiles with
  | (evs, Outcome.exited c) => (evs, Outcome.exited c)
  | (evs, Outcome.normal) =>
    match purgeStep env with
    | (evs2, o) => (evs ++ evs2, o)

/-- Embedding of `runDelete`: usage check, profile enumeration, multi-profile purge guard,
per-profile teardown loop, optional purge of the configuration root. -/
def runDelete (env : RunEnv) : List Event × Outcome :=
  if env.args.length > 0 then ([], Outcome.exited exitUsageCode)
  else if guardFires env then (guardEvents env.validProfiles, Outcome.normal)
  else loopThenPurge env

/-! ### Helper lemmas -/

/-- A numeric tag for each event constructor, used to show that certain event
kinds cannot occur in certain segments. -/
def Event.tag : Event → Nat
  | .printT _ _ _ => 0
  | .printErrT _ _ _ => 1
  | .setProfileAttempt _ => 2
  | .apiClose => 3
  | .bootstrapperResolveAttempt _ => 4
  | .bootstrapperDeleteClusterAttempt _ => 5
  | .killSignal _ => 6
  | .removeFile _ => 7
  | .deleteHostAttempt => 8
  | .removeDirAttempt _ => 9
  | .deleteProfileMetaAttempt _ => 10
  | .deleteContextAttempt _ => 11
  | .unsetProfileAttempt => 12
  | .purgeRootAttempt _ => 13

/-- All events of a list have tag at most `n`. -/
def tagLE (n : Nat) (evs : List Event) : Prop := ∀ e ∈ evs, Event.tag e ≤ n

/-- Boolean version of `tagLE`, convenient to discharge by evaluation. -/
def tagAllLE (n : Nat) (evs : List Event) : Bool :=
  evs.all fun e => decide (Event.tag e ≤ n)

theorem tagLE_of_tagAllLE {n : Nat} {evs : List Event} (h : tagAllLE n evs = true) :
    tagLE n evs := by
  intro e he
  exact of_decide_eq_true (List.all_eq_true.mp h e he)

theorem tagLE_append {n : Nat} {a b : List Event} (ha : tagLE n a) (hb : tagLE n b) :
    tagLE n (a ++ b) := by
  intro e he
  rcases List.mem_append.mp he with h | h
  · exact ha e h
  · exact hb e h

theorem tagLE_cons {n : Nat} {e : Event} {evs : List Event}
    (h1 : Event.tag e ≤ n) (h2 : tagLE n evs) : tagLE n (e :: evs) := by
  intro x hx
  rcases List.mem_cons.mp hx with rfl | hx
  · exact h1
  · exact h2 x hx

theorem tagLE_mono {n m : Nat} {a : List Event} (h : tagLE n a) (hnm : n ≤ m) :
    tagLE m a := fun e he => le_trans (h e he) hnm

theorem killMountProcess_tags (renv : ReaperEnv) :
    tagLE 10 (killMountProcess renv).1 := by
  apply tagLE_of_tagAllLE
  unfold tagAllLE killMountProcess
  repeat' split
  all_goals rfl

theorem uninstallKubernetes_tags (env : ProfileEnv) (kc : KubernetesConfig) (bs : String) :
    tagLE 10 (uninstallKubernetes env kc bs) := by
  apply tagLE_of_tagAllLE
  unfold tagAllLE uninstallKubernetes
  repeat' split
  all_goals rfl

theorem loadSegment_tags (env : ProfileEnv) (p : String) :
    tagLE 10 (loadSegment env p) := by
  apply tagLE_of_tagAllLE
  unfold tagAllLE loadSegment
  repeat' split
  all_goals rfl

theorem uninstallSegment_tags (env : ProfileEnv) :
    tagLE 10 (uninstallSegment env) := by
  unfold uninstallSegment
  split
  next cc _ =>
    split
    · exact uninstallKubernetes_tags env cc.kubernetesConfig env.bootstrapperName
    · intro e he; simp at he
  next => intro e he; simp at he

theorem reaperSegment_tags (env : ProfileEnv) :
    tagLE 10 (reaperSegment env) := by
  unfold reaperSegment
  split
  next evs err h =>
    apply tagLE_append
    · have := killMountProcess_tags env.reaper
      rw [h] at this
      exact this
    · intro e he; simp at he; subst he; simp [Event.tag]
  next evs h =>
    have := killMountProcess_tags env.reaper
    rw [h] at this
    exact this

theorem hostSegment_tags (env : ProfileEnv) (p : String) :
    tagLE 10 (hostSegment env p) := by
  apply tagLE_of_tagAllLE
  unfold tagAllLE hostSegment
  repeat' split
  all_goals rfl

theorem removeDirStep_tags (b : Bool) (r : Option GoErr) (d : String) :
    tagLE 10 (removeDirStep b r d).1 := by
  apply tagLE_of_tagAllLE
  unfold tagAllLE removeDirStep
  repeat' split
  all_goals rfl

theorem deleteProfileDirectory_tags (env : ProfileEnv) (p : String) :
    tagLE 10 (deleteProfileDirectory env p).1 := by
  unfold deleteProfileDirectory
  split
  next evs c h =>
    have := removeDirStep_tags env.machineDirExists env.removeMachineDirResult (machinesDir p)
    rw [h] at this
    exact this
  next evs h =>
    split
    next evs2 o h2 =>
      apply tagLE_append
      · have := removeDirStep_tags env.machineDirExists env.removeMachineDirResult (machinesDir p)
        rw [h] at this
        exact this
      · have := removeDirStep_tags env.profileDirExists env.removeProfileDirResult (profilesDir p)
        rw [h2] at this
        exact this

theorem tagLE_nil {n : Nat} : tagLE n [] := fun e he => absurd he (List.not_mem_nil e)

theorem tagLE_single {n : Nat} {e : Event} (h : Event.tag e ≤ n) : tagLE n [e] :=
  tagLE_cons h tagLE_nil

theorem deleteProfile_tags (env : ProfileEnv) (p : String) :
    tagLE 12 (deleteProfile env p).1 := by
  have hS : tagLE 12 (Event.setProfileAttempt p ::
      (loadSegment env p ++ uninstallSegment env ++ reaperSegment env ++ hostSegment env p)) :=
    tagLE_cons (by simp [Event.tag])
      (tagLE_mono
        (tagLE_append (tagLE_append (tagLE_append (loadSegment_tags env p)
          (uninstallSegment_tags env)) (reaperSegment_tags env)) (hostSegment_tags env p))
        (by omega))
  unfold deleteProfile
  split
  · exact tagLE_single (by simp [Event.tag])
  split
  · exact tagLE_single (by simp [Event.tag])
  split
  next dirEvs c hdir =>
    have hD : tagLE 12 dirEvs := by
      have h10 := tagLE_mono (deleteProfileDirectory_tags env p)
        (show (10 : Nat) ≤ 12 by omega)
      rw [hdir] at h10
      exact h10
    exact tagLE_append hS hD
  next dirEvs hdir =>
    have hD : tagLE 12 dirEvs := by
      have h10 := tagLE_mono (deleteProfileDirectory_tags env p)
        (show (10 : Nat) ≤ 12 by omega)
      rw [hdir] at h10
      exact h10
    have hP2 : tagLE 12 ((Event.setProfileAttempt p ::
        (loadSegment env p ++ uninstallSegment env ++ reaperSegment env ++ hostSegment env p)) ++
        dirEvs ++ [Event.deleteProfileMetaAttempt p]) :=
      tagLE_append (tagLE_append hS hD) (tagLE_single (by simp [Event.tag]))
    split
    next e hmeta =>
      split
      · exact tagLE_append hP2 (tagLE_single (by simp [Event.tag]))
      · exact hP2
    next hmeta =>
      have hP3 : tagLE 12 ((Event.setProfileAttempt p ::
          (loadSegment env p ++ uninstallSegment env ++ reaperSegment env ++
            hostSegment env p)) ++ dirEvs ++ [Event.deleteProfileMetaAttempt p] ++
          [Event.printT "Crushed" "The \"\x7b\x7b.name\x7d\x7d\" cluster has been deleted."
            [("name", p)],
           Event.deleteContextAttempt env.machineName]) :=
        tagLE_append hP2 (tagLE_cons (by simp [Event.tag]) (tagLE_single (by simp [Event.tag])))
      split
      · exact hP3
      split
      · exact tagLE_append hP3 (tagLE_single (by simp [Event.tag]))
      · exact tagLE_append hP3
          (tagLE_cons (by simp [Event.tag]) (tagLE_single (by simp [Event.tag])))

theorem deleteProfile_mem_pre (env : ProfileEnv) (p : String) (e : Event)
    (hset : env.setResult = none) (hapi : env.apiResult = none)
    (he : e ∈ Event.setProfileAttempt p ::
      (loadSegment env p ++ uninstallSegment env ++ reaperSegment env ++ hostSegment env p)) :
    e ∈ (deleteProfile env p).1 := by
  simp only [deleteProfile, hset, hapi]
  split
  next dirEvs c hdir =>
    simp only [List.mem_append, List.mem_cons] at he ⊢
    tauto
  next dirEvs hdir =>
    split
    next err hmeta =>
      split
      all_goals simp only [List.mem_append, List.mem_cons] at he ⊢
      all_goals tauto
    next hmeta =>
      split
      next herr => simp only [List.mem_append, List.mem_cons] at he ⊢; tauto
      split
      all_goals simp only [List.mem_append, List.mem_cons] at he ⊢
      all_goals tauto

/-! ### Claims about the process reaper (`killMountProcess`) -/

/-- C5: PID file present, contents parse, process-table lookup finds no live
process: the reaper performs exactly one effect — deleting the PID file — so
in particular no termination signal is sent; if the OS file deletion
succeeds, the reaper returns success. -/
theorem reaper_stale_pid_removed (env : ReaperEnv) (s : String) (pid : Int)
    (hex : env.pidFileExists = true)
    (hread : env.readResult = Except.ok s)
    (hparse : atoi s = some pid)
    (hps : env.psFindResult = Except.ok none) :
    (killMountProcess env).1 = [Event.removeFile pidPath] ∧
    (∀ q : Int, Event.killSignal q ∉ (killMountProcess env).1) ∧
    (env.removePidResult = none → (killMountProcess env).2 = none) := by
  cases h : env.removePidResult <;>
    simp_all [killMountProcess, hex, hread, hparse, hps, h]

/-- Environment of a reaper run with a stale PID file: the file exists, holds
`4242`, and no process with that PID is alive. -/
def staleReaperEnv : ReaperEnv :=
  { pidFileExists := true
    readResult := Except.ok "4242"
    psFindResult := Except.ok none
    removePidResult := none
    osFindResult := none
    killResult := none }

theorem reaper_stale_pid_removed_witness :
    (killMountProcess staleReaperEnv).1 = [Event.removeFile pidPath] ∧
    (∀ q : Int, Event.killSignal q ∉ (killMountProcess staleReaperEnv).1) ∧
    (staleReaperEnv.removePidResult = none → (killMountProcess staleReaperEnv).2 = none) :=
  reaper_stale_pid_removed staleReaperEnv "4242" 4242 rfl rfl (by decide) rfl

/-- C6: a live process was found but the termination signal failed: the
reaper attempts to delete the PID file and returns a wrapped error — wrapping
the kill failure if the deletion succeeded, and wrapping the deletion failure
(which supersedes the kill failure as the reported cause) if the deletion
failed too. -/
theorem reaper_kill_failure (env : ReaperEnv) (s : String) (pid : Int)
    (entry : ProcEntry) (ke : GoErr)
    (hex : env.pidFileExists = true)
    (hread : env.readResult = Except.ok s)
    (hparse : atoi s = some pid)
    (hps : env.psFindResult = Except.ok (some entry))
    (hos : env.osFindResult = none)
    (hkill : env.killResult = some ke) :
    (killMountProcess env).1 = [Event.killSignal pid, Event.removeFile pidPath] ∧
    (env.removePidResult = none →
      (killMountProcess env).2 =
        some (GoErr.wrap ke ("Kill(" ++ toString pid ++ "/" ++ entry.executable ++ ")"))) ∧
    (∀ re : GoErr, env.removePidResult = some re →
      (killMountProcess env).2 = some (GoErr.wrap re "Removing likely stale unkillable pid") ∧
      (GoErr.wrap re "Removing likely stale unkillable pid").cause = re.cause) := by
  refine ⟨?_, ?_, ?_⟩ <;>
    cases h : env.removePidResult <;>
      simp_all [killMountProcess, GoErr.cause]

/-- Environment of a reaper run that finds a live process whose kill fails
and whose PID-file deletion also fails. -/
def unkillableReaperEnv : ReaperEnv :=
  { pidFileExists := true
    readResult := Except.ok "4242"
    psFindResult := Except.ok (some { executable := "minikube" })
    removePidResult := some (GoErr.base .other "permission denied")
    osFindResult := none
    killResult := some (GoErr.base .other "operation not permitted") }

theorem reaper_kill_failure_witness :
    (killMountProcess unkillableReaperEnv).1 =
      [Event.killSignal 4242, Event.removeFile pidPath] ∧
    (unkillableReaperEnv.removePidResult = none →
      (killMountProcess unkillableReaperEnv).2 =
        some (GoErr.wrap (GoErr.base .other "operation not permitted") "Kill(4242/minikube)")) ∧
    (∀ re : GoErr, unkillableReaperEnv.removePidResult = some re →
      (killMountProcess unkillableReaperEnv).2 =
        some (GoErr.wrap re "Removing likely stale unkillable pid") ∧
      (GoErr.wrap re "Removing likely stale unkillable pid").cause = re.cause) :=
  reaper_kill_failure unkillableReaperEnv "4242" 4242 { executable := "minikube" }
    (GoErr.base .other "operation not permitted") rfl rfl (by decide) rfl rfl rfl

/-- C7: a live process was found and the termination signal succeeded: the
reaper returns success and performs no file removal at all — the PID file is
left in place. -/
theorem reaper_kill_success (env : ReaperEnv) (s : String) (pid : Int)
    (entry : ProcEntry)
    (hex : env.pidFileExists = true)
    (hread : env.readResult = Except.ok s)
    (hparse : atoi s = some pid)
    (hps : env.psFindResult = Except.ok (some entry))
    (hos : env.osFindResult = none)
    (hkill : env.killResult = none) :
    killMountProcess env = ([Event.killSignal pid], none) ∧
    (∀ q : String, Event.removeFile q ∉ (killMountProcess env).1) := by
  simp_all [killMountProcess]

/-- Environment of a reaper run that finds a live process and kills it
successfully. -/
def killedReaperEnv : ReaperEnv :=
  { pidFileExists := true
    readResult := Except.ok "4242"
    psFindResult := Except.ok (some { executable := "minikube" })
    removePidResult := none
    osFindResult := none
    killResult := none }

theorem reaper_kill_success_witness :
    killMountProcess killedReaperEnv = ([Event.killSignal 4242], none) ∧
    (∀ q : String, Event.removeFile q ∉ (killMountProcess killedReaperEnv).1) :=
  reaper_kill_success killedReaperEnv "4242" 4242 { executable := "minikube" }
    rfl rfl (by decide) rfl rfl rfl

/-- C10: the PID file exists but reading it fails, or its contents do not
parse as an integer: the reaper performs no effects (in particular it does
not delete the PID file), returns a wrapped error, and — since the file state
is unchanged — a subsequent invocation returns the same result. -/
theorem reaper_unreadable_pidfile (env : ReaperEnv)
    (hex : env.pidFileExists = true)
    (hbad : (∃ e, env.readResult = Except.error e) ∨
      (∃ s, env.readResult = Except.ok s ∧ atoi s = none)) :
    (killMountProcess env).1 = [] ∧
    (∃ e m, (killMountProcess env).2 = some (GoErr.wrap e m)) ∧
    killMountProcess (env.afterEvents (killMountProcess env).1) = killMountProcess env := by
  have hmain : (killMountProcess env).1 = [] ∧
      ∃ e m, (killMountProcess env).2 = some (GoErr.wrap e m) := by
    rcases hbad with ⟨e, he⟩ | ⟨s, hs, hp⟩
    · refine ⟨?_, e, "ReadFile", ?_⟩ <;> simp [killMountProcess, hex, he]
    · refine ⟨?_, GoErr.base .other ("strconv.Atoi: parsing " ++ s ++ ": invalid syntax"),
        "error parsing pid", ?_⟩ <;> simp [killMountProcess, hex, hs, hp]
  refine ⟨hmain.1, hmain.2, ?_⟩
  rw [hmain.1]
  have : env.afterEvents [] = env := rfl
  rw [this]

/-- Environment of a reaper run whose PID file holds garbage. -/
def garbageReaperEnv : ReaperEnv :=
  { pidFileExists := true
    readResult := Except.ok "not-a-pid"
    psFindResult := Except.ok none
    removePidResult := none
    osFindResult := none
    killResult := none }

theorem reaper_unreadable_pidfile_witness :
    (killMountProcess garbageReaperEnv).1 = [] ∧
    (∃ e m, (killMountProcess garbageReaperEnv).2 = some (GoErr.wrap e m)) ∧
    killMountProcess (garbageReaperEnv.afterEvents (killMountProcess garbageReaperEnv).1) =
      killMountProcess garbageReaperEnv :=
  reaper_unreadable_pidfile garbageReaperEnv rfl (Or.inr ⟨"not-a-pid", rfl, by decide⟩)

/-! ### Claims about the per-profile teardown (`deleteProfile`) -/

/-- Reaper environment of a run with no PID file at all. -/
def benignReaperEnv : ReaperEnv :=
  { pidFileExists := false
    readResult := Except.ok ""
    psFindResult := Except.ok none
    removePidResult := none
    osFindResult := none
    killResult := none }

/-- Profile environment in which every collaborator succeeds, the driver is
a VM driver, and both profile directories are already absent. -/
def benignProfileEnv : ProfileEnv :=
  { setResult := none
    apiResult := none
    loadResult := Except.ok ⟨⟨"virtualbox"⟩, ⟨"v1.16.0"⟩⟩
    bootstrapperName := "kubeadm"
    getBootstrapperResult := none
    deleteClusterResult := none
    reaper := benignReaperEnv
    deleteHostResult := none
    machineDirExists := false
    removeMachineDirResult := none
    profileDirExists := false
    removeProfileDirResult := none
    deleteProfileMetaResult := none
    machineName := "minikube"
    deleteContextResult := none
    unsetResult := none }

/-- C8: removing the machine-state directory or the profile-state directory
when it is already absent is a silent no-op — no event, no error, no process
termination — and when both are absent `deleteProfileDirectory` as a whole is
a silent no-op, so the teardown proceeds. -/
theorem absent_profile_dirs_noop (env : ProfileEnv) (p : String)
    (r : Option GoErr) (d : String) :
    removeDirStep false r d = ([], Outcome.normal) ∧
    (env.machineDirExists = false → env.profileDirExists = false →
      deleteProfileDirectory env p = ([], Outcome.normal)) := by
  refine ⟨rfl, fun h1 h2 => ?_⟩
  simp [deleteProfileDirectory, removeDirStep, h1, h2]

theorem absent_profile_dirs_noop_witness :
    removeDirStep false none (machinesDir "minikube") = ([], Outcome.normal) ∧
    deleteProfileDirectory benignProfileEnv "minikube" = ([], Outcome.normal) :=
  ⟨(absent_profile_dirs_noop benignProfileEnv "minikube" none (machinesDir "minikube")).1,
   (absent_profile_dirs_noop benignProfileEnv "minikube" none (machinesDir "minikube")).2 rfl rfl⟩

/-- C2: when `deleteProfile` reaches the profile-metadata deletion and it
fails with a "not found" error, the whole process exits immediately with
status 0, having never attempted the kubeconfig (credentials) edit or the
active-profile unset; any other metadata-deletion failure exits the process
with the nonzero `exit.WithError` status. -/
theorem meta_not_found_exits_zero (env : ProfileEnv) (p : String) (e : GoErr)
    (hset : env.setResult = none) (hapi : env.apiResult = none)
    (hdir : (deleteProfileDirectory env p).2 = Outcome.normal)
    (hmeta : env.deleteProfileMetaResult = some e) :
    (e.isNotExist = true →
      (deleteProfile env p).2 = Outcome.exited 0 ∧
      (∀ m, Event.deleteContextAttempt m ∉ (deleteProfile env p).1) ∧
      Event.unsetProfileAttempt ∉ (deleteProfile env p).1) ∧
    (e.isNotExist = false →
      (deleteProfile env p).2 = Outcome.exited exitWithErrorCode ∧
      exitWithErrorCode ≠ 0) := by
  rcases hd : deleteProfileDirectory env p with ⟨dirEvs, o⟩
  rw [hd] at hdir
  simp only at hdir
  subst hdir
  have hD10 : tagLE 10 dirEvs := by
    have h10 := deleteProfileDirectory_tags env p
    rw [hd] at h10
    exact h10
  have h10 : tagLE 10 ((Event.setProfileAttempt p ::
      (loadSegment env p ++ uninstallSegment env ++ reaperSegment env ++ hostSegment env p)) ++
      dirEvs ++ [Event.deleteProfileMetaAttempt p] ++
      [Event.printT "Meh" "\"\x7b\x7b.name\x7d\x7d\" profile does not exist" [("name", p)]]) :=
    tagLE_append
      (tagLE_append
        (tagLE_append
          (tagLE_cons (by simp [Event.tag])
            (tagLE_append (tagLE_append (tagLE_append (loadSegment_tags env p)
              (uninstallSegment_tags env)) (reaperSegment_tags env)) (hostSegment_tags env p)))
          hD10)
        (tagLE_single (by simp [Event.tag])))
      (tagLE_single (by simp [Event.tag]))
  constructor
  · intro hne
    have hcomp : deleteProfile env p =
        ((Event.setProfileAttempt p ::
          (loadSegment env p ++ uninstallSegment env ++ reaperSegment env ++
            hostSegment env p)) ++ dirEvs ++ [Event.deleteProfileMetaAttempt p] ++
          [Event.printT "Meh" "\"\x7b\x7b.name\x7d\x7d\" profile does not exist" [("name", p)]],
         Outcome.exited 0) := by
      simp only [deleteProfile, hset, hapi, hd, hmeta, hne, if_true]
    refine ⟨by rw [hcomp], ?_, ?_⟩
    · intro m hm
      rw [hcomp] at hm
      have := h10 _ hm
      simp [Event.tag] at this
    · intro hm
      rw [hcomp] at hm
      have := h10 _ hm
      simp [Event.tag] at this
  · intro hne
    have hcomp : (deleteProfile env p).2 = Outcome.exited exitWithErrorCode := by
      simp [deleteProfile, hset, hapi, hd, hmeta, hne]
    exact ⟨hcomp, by decide⟩

/-- Profile environment whose metadata-deletion reports "not found". -/
def metaGoneProfileEnv : ProfileEnv :=
  { benignProfileEnv with
    deleteProfileMetaResult := some (GoErr.base .notExist "profile does not exist") }

theorem meta_not_found_exits_zero_witness :
    ((GoErr.base .notExist "profile does not exist").isNotExist = true →
      (deleteProfile metaGoneProfileEnv "minikube").2 = Outcome.exited 0 ∧
      (∀ m, Event.deleteContextAttempt m ∉ (deleteProfile metaGoneProfileEnv "minikube").1) ∧
      Event.unsetProfileAttempt ∉ (deleteProfile metaGoneProfileEnv "minikube").1) ∧
    ((GoErr.base .notExist "profile does not exist").isNotExist = false →
      (deleteProfile metaGoneProfileEnv "minikube").2 = Outcome.exited exitWithErrorCode ∧
      exitWithErrorCode ≠ 0) :=
  meta_not_found_exits_zero metaGoneProfileEnv "minikube"
    (GoErr.base .notExist "profile does not exist") rfl rfl (by decide) rfl

/-- Profile environment whose persisted configuration names the `"none"`
driver. -/
def noneDriverEnv : ProfileEnv :=
  { benignProfileEnv with loadResult := Except.ok ⟨⟨"none"⟩, ⟨"v1.16.0"⟩⟩ }

/-- C3 counterexample: with the `"none"` driver the code does invoke the
bootstrapper uninstall, but it also still requests deletion of the virtual
host via the management API — refuting "instead of". -/
theorem none_driver_counterexample :
    Event.bootstrapperResolveAttempt "kubeadm" ∈ (deleteProfile noneDriverEnv "minikube").1 ∧
    Event.bootstrapperDeleteClusterAttempt "kubeadm" ∈
      (deleteProfile noneDriverEnv "minikube").1 ∧
    Event.deleteHostAttempt ∈ (deleteProfile noneDriverEnv "minikube").1 := by
  decide

/-- C3 amended: for every profile whose configuration loads successfully with
the `"none"` driver, `deleteProfile` invokes the bootstrapper's uninstall
operation, and additionally (not instead) still requests deletion of the
virtual host via the management API. -/
theorem none_driver_uninstalls_and_deletes_host (env : ProfileEnv) (p : String)
    (cc : ClusterConfig)
    (hset : env.setResult = none) (hapi : env.apiResult = none)
    (hload : env.loadResult = Except.ok cc)
    (hdriver : cc.machineConfig.vmDriver = driverNone) :
    Event.bootstrapperResolveAttempt env.bootstrapperName ∈ (deleteProfile env p).1 ∧
    Event.deleteHostAttempt ∈ (deleteProfile env p).1 := by
  constructor
  · apply deleteProfile_mem_pre env p _ hset hapi
    have h1 : Event.bootstrapperResolveAttempt env.bootstrapperName ∈ uninstallSegment env := by
      simp only [uninstallSegment, hload, hdriver, if_pos, uninstallKubernetes]
      simp
    simp only [List.mem_append, List.mem_cons]
    tauto
  · apply deleteProfile_mem_pre env p _ hset hapi
    have h1 : Event.deleteHostAttempt ∈ hostSegment env p := by
      simp [hostSegment]
    simp only [List.mem_append, List.mem_cons]
    tauto

theorem none_driver_uninstalls_and_deletes_host_witness :
    Event.bootstrapperResolveAttempt "kubeadm" ∈ (deleteProfile noneDriverEnv "minikube").1 ∧
    Event.deleteHostAttempt ∈ (deleteProfile noneDriverEnv "minikube").1 :=
  none_driver_uninstalls_and_deletes_host noneDriverEnv "minikube"
    ⟨⟨"none"⟩, ⟨"v1.16.0"⟩⟩ rfl rfl rfl rfl

/-! ### Claims about the outer run (`runDelete`) -/

theorem runProfiles_tags (env : RunEnv) (ps : List String) :
    tagLE 12 (runProfiles env ps).1 := by
  induction ps with
  | nil => exact tagLE_nil
  | cons p ps ih =>
    unfold runProfiles
    split
    next evs c h =>
      have h12 := deleteProfile_tags (env.profileEnv p) p
      rw [h] at h12
      exact h12
    next evs h =>
      split
      next evs2 o h2 =>
        apply tagLE_append
        · have h12 := deleteProfile_tags (env.profileEnv p) p
          rw [h] at h12
          exact h12
        · rw [h2] at ih
          exact ih

theorem setProfile_mem_deleteProfile (env : ProfileEnv) (p : String) :
    Event.setProfileAttempt p ∈ (deleteProfile env p).1 := by
  unfold deleteProfile
  repeat' split
  all_goals simp

theorem runProfiles_all_attempted (env : RunEnv) (ps : List String)
    (hn : (runProfiles env ps).2 = Outcome.normal) :
    ∀ p ∈ ps, Event.setProfileAttempt p ∈ (runProfiles env ps).1 := by
  induction ps with
  | nil => intro p hp; simp at hp
  | cons q qs ih =>
    intro p hp
    unfold runProfiles at hn ⊢
    rcases h : deleteProfile (env.profileEnv q) q with ⟨evs, o⟩
    rw [h] at hn
    cases o with
    | exited c => simp at hn
    | normal =>
      simp only at hn
      have ihm := ih hn
      rcases h2 : runProfiles env qs with ⟨evs2, o2⟩
      rw [h2] at ihm
      dsimp only
      rcases List.mem_cons.mp hp with rfl | hp2
      · apply List.mem_append_left
        have hm := setProfile_mem_deleteProfile (env.profileEnv p) p
        rw [h] at hm
        exact hm
      · exact List.mem_append_right _ (ihm p hp2)

/-- C1: when the enumeration succeeds with more than one profile, purge is
requested and force is not, `runDelete` only prints — the guard output and a
normal return, zero mutating events — listing every enumerated profile name
and the instruction to re-run with the force flag. -/
theorem purge_guard_zero_mutations (env : RunEnv)
    (hargs : env.args = [])
    (herr : env.listErr = none)
    (hpurge : env.purgeFlag = true)
    (hlen : env.validProfiles.length > 1)
    (hforce : env.forceFlag = false) :
    runDelete env = (guardEvents env.validProfiles, Outcome.normal) ∧
    (∀ e ∈ (runDelete env).1, e.isMutation = false) ∧
    (∀ p ∈ env.validProfiles,
      Event.printT "Notice" "    - \x7b\x7b.profileName\x7d\x7d" [("profileName", p)] ∈
        (runDelete env).1) ∧
    Event.printT "Notice"
        "Please use the \x7b\x7b.forceFlag\x7d\x7d to delete all of the configuration and the profiles."
        [("forceFlag", "forcedelete")] ∈ (runDelete env).1 := by
  have hg : guardFires env = true := by
    simp [guardFires, herr, hpurge, hforce, hlen]
  have hrun : runDelete env = (guardEvents env.validProfiles, Outcome.normal) := by
    simp [runDelete, hargs, hg]
  refine ⟨hrun, ?_, ?_, ?_⟩
  · intro e he
    rw [hrun] at he
    simp only [guardEvents, List.mem_cons, List.mem_append, List.mem_map,
      List.mem_singleton, List.not_mem_nil, or_false] at he
    rcases he with (rfl | ⟨p, hp, rfl⟩) | rfl
    all_goals rfl
  · intro p hp
    rw [hrun]
    exact List.mem_cons_of_mem _ (List.mem_append_left _ (List.mem_map.mpr ⟨p, hp, rfl⟩))
  · rw [hrun]
    exact List.mem_cons_of_mem _ (List.mem_append_right _ (List.mem_singleton.mpr rfl))

/-- Run environment with three profiles, purge requested and force absent. -/
def guardRunEnv : RunEnv :=
  { args := []
    validProfiles := ["a", "b", "c"]
    listErr := none
    purgeFlag := true
    forceFlag := false
    profileEnv := fun _ => benignProfileEnv
    removeAllRootResult := none }

theorem purge_guard_zero_mutations_witness :
    runDelete guardRunEnv = (guardEvents guardRunEnv.validProfiles, Outcome.normal) ∧
    (∀ e ∈ (runDelete guardRunEnv).1, e.isMutation = false) ∧
    (∀ p ∈ guardRunEnv.validProfiles,
      Event.printT "Notice" "    - \x7b\x7b.profileName\x7d\x7d" [("profileName", p)] ∈
        (runDelete guardRunEnv).1) ∧
    Event.printT "Notice"
        "Please use the \x7b\x7b.forceFlag\x7d\x7d to delete all of the configuration and the profiles."
        [("forceFlag", "forcedelete")] ∈ (runDelete guardRunEnv).1 :=
  purge_guard_zero_mutations guardRunEnv rfl rfl rfl (by decide) rfl

/-- Run environment whose profile enumeration reports an error. -/
def listErrRunEnv : RunEnv :=
  { args := []
    validProfiles := ["p1"]
    listErr := some (GoErr.base .other "enumeration failed")
    purgeFlag := true
    forceFlag := false
    profileEnv := fun _ => benignProfileEnv
    removeAllRootResult := none }

/-- C4 counterexample: the profile enumeration returns an error, yet the run
returns normally (no nonzero termination) and even proceeds to the purge
step, mutating the configuration root. -/
theorem list_error_counterexample :
    (runDelete listErrRunEnv).2 = Outcome.normal ∧
    Event.setProfileAttempt "p1" ∈ (runDelete listErrRunEnv).1 ∧
    Event.purgeRootAttempt miniPath ∈ (runDelete listErrRunEnv).1 := by
  decide

/-- C4 amended: an enumeration error from `ListProfiles` does not terminate
the process; it only disables the multi-profile purge guard, and the run
proceeds to the per-profile teardown loop and the purge step. -/
theorem list_error_does_not_terminate (env : RunEnv) (e : GoErr)
    (hargs : env.args = []) (herr : env.listErr = some e) :
    guardFires env = false ∧ runDelete env = loopThenPurge env := by
  have hg : guardFires env = false := by simp [guardFires, herr]
  exact ⟨hg, by simp [runDelete, hargs, hg]⟩

theorem list_error_does_not_terminate_witness :
    guardFires listErrRunEnv = false ∧ runDelete listErrRunEnv = loopThenPurge listErrRunEnv :=
  list_error_does_not_terminate listErrRunEnv (GoErr.base .other "enumeration failed") rfl rfl

/-- C9: when purge is requested and the guard did not fire, no event of the
per-profile teardown loop touches the configuration root; the root removal
belongs to the purge step, which runs exactly when the loop has completed
over every enumerated profile, appended after all loop events; if a profile's
teardown terminates the process, the purge never happens. -/
theorem purge_only_after_all_teardowns (env : RunEnv)
    (hargs : env.args = [])
    (hpurge : env.purgeFlag = true)
    (hguard : guardFires env = false) :
    (∀ d, Event.purgeRootAttempt d ∉ (runProfiles env env.validProfiles).1) ∧
    ((runProfiles env env.validProfiles).2 = Outcome.normal →
      runDelete env =
        ((runProfiles env env.validProfiles).1 ++ (purgeStep env).1, (purgeStep env).2) ∧
      Event.purgeRootAttempt miniPath ∈ (purgeStep env).1 ∧
      (∀ p ∈ env.validProfiles,
        Event.setProfileAttempt p ∈ (runProfiles env env.validProfiles).1)) ∧
    (∀ c, (runProfiles env env.validProfiles).2 = Outcome.exited c →
      runDelete env = ((runProfiles env env.validProfiles).1, Outcome.exited c)) := by
  refine ⟨?_, ?_, ?_⟩
  · intro d hm
    have h12 := runProfiles_tags env env.validProfiles _ hm
    simp [Event.tag] at h12
  · intro hn
    have hall := runProfiles_all_attempted env env.validProfiles hn
    rcases hr : runProfiles env env.validProfiles with ⟨evs, o⟩
    rw [hr] at hn
    simp only at hn
    subst hn
    refine ⟨?_, ?_, ?_⟩
    · simp [runDelete, hargs, hguard, loopThenPurge, hr]
    · cases h : env.removeAllRootResult <;> simp [purgeStep, hpurge, h]
    · rw [hr] at hall
      exact hall
  · intro c hc
    rcases hr : runProfiles env env.validProfiles with ⟨evs, o⟩
    rw [hr] at hc
    simp only at hc
    subst hc
    simp [runDelete, hargs, hguard, loopThenPurge, hr]

/-- Run environment with two profiles, purge and force both requested, and
all collaborators succeeding. -/
def purgeRunEnv : RunEnv :=
  { args := []
    validProfiles := ["p1", "p2"]
    listErr := none
    purgeFlag := true
    forceFlag := true
    profileEnv := fun _ => benignProfileEnv
    removeAllRootResult := none }

theorem purge_only_after_all_teardowns_witness :
    (∀ d, Event.purgeRootAttempt d ∉ (runProfiles purgeRunEnv purgeRunEnv.validProfiles).1) ∧
    (runDelete purgeRunEnv =
      ((runProfiles purgeRunEnv purgeRunEnv.validProfiles).1 ++ (purgeStep purgeRunEnv).1,
        (purgeStep purgeRunEnv).2) ∧
      Event.purgeRootAttempt miniPath ∈ (purgeStep purgeRunEnv).1 ∧
      (∀ p ∈ purgeRunEnv.validProfiles,
        Event.setProfileAttempt p ∈ (runProfiles purgeRunEnv purgeRunEnv.validProfiles).1)) :=
  ⟨(purge_only_after_all_teardowns purgeRunEnv rfl rfl rfl).1,
   (purge_only_after_all_teardowns purgeRunEnv rfl rfl rfl).2.1 (by decide)⟩

end MinikubeDelete
